import Mathlib

/-!
Verification of the recurring-event edit core of the talawa-admin
`EventListCardModals` component (`src/components/EventListCard/Modal`),
together with the recurrence-comparison helpers it imports from
`utils/recurrenceUtils`.

The component's pure decision logic is embedded shallowly: React state
becomes explicit structures, the scope-options `useEffect` becomes a state
transformer, and the GraphQL mutation payload built by `updateEventHandler`
becomes a record of `Option`-valued fields (`none` models a JavaScript
`undefined` field, i.e. an omitted key).

The `utils/recurrenceUtils` module itself is not part of the sources at
hand (only its call sites are), so `haveInstanceDatesChanged`,
`hasRecurrenceRuleChanged` and `getRecurrenceRuleText` are modelled from
the specification's contracts for them.
-/

namespace TalawaEvent

/-- Weekday tags of a recurrence rule (the `Days` values of
`utils/recurrenceUtils`). -/
inductive WeekDay where
  | SUNDAY
  | MONDAY
  | TUESDAY
  | WEDNESDAY
  | THURSDAY
  | FRIDAY
  | SATURDAY
deriving DecidableEq, Repr, Fintype

/-- Recurrence frequency (the `Frequency` enum of `utils/recurrenceUtils`). -/
inductive Frequency where
  | DAILY
  | WEEKLY
  | MONTHLY
  | YEARLY
deriving DecidableEq, Repr

/-- The three recurring-event mutation scopes (`RecurringEventMutationType`
of `utils/recurrenceUtils`). -/
inductive RecurringEventMutationType where
  | thisInstance
  | thisAndFollowingInstances
  | allInstances
deriving DecidableEq, Repr

/-- The exported constant `thisInstance` of `utils/recurrenceUtils`. -/
def thisInstance : RecurringEventMutationType :=
  RecurringEventMutationType.thisInstance

/-- The exported constant `thisAndFollowingInstances` of
`utils/recurrenceUtils`. -/
def thisAndFollowingInstances : RecurringEventMutationType :=
  RecurringEventMutationType.thisAndFollowingInstances

/-- The exported constant `allInstances` of `utils/recurrenceUtils`. -/
def allInstances : RecurringEventMutationType :=
  RecurringEventMutationType.allInstances

/-- A calendar date (year, month, day), the date-only part of a JavaScript
`Date`, i.e. what `dayjs(d).format('YYYY-MM-DD')` exposes. -/
structure CalDate where
  year : Nat
  month : Nat
  day : Nat
deriving DecidableEq, Repr

/-- A JavaScript `Date` value: a calendar date together with a
time-of-day. -/
structure DateTime where
  date : CalDate
  hour : Nat
  minute : Nat
  second : Nat
deriving DecidableEq, Repr

/-- Left-pad a numeral to two digits, as in the `MM` and `DD` fields of the
`YYYY-MM-DD` format. -/
def pad2 (n : Nat) : String :=
  if n < 10 then "0" ++ toString n else toString n

/-- Left-pad a numeral to four digits, as in the `YYYY` field of the
`YYYY-MM-DD` format. -/
def pad4 (n : Nat) : String :=
  if n < 10 then "000" ++ toString n
  else if n < 100 then "00" ++ toString n
  else if n < 1000 then "0" ++ toString n
  else toString n

/-- Render a calendar date in the `YYYY-MM-DD` format. -/
def formatYMD (d : CalDate) : String :=
  pad4 d.year ++ "-" ++ pad2 d.month ++ "-" ++ pad2 d.day

/-- `dayjs(dt).format('YYYY-MM-DD')`: the date-only rendering of a `Date`
value, dropping the time-of-day. -/
def formatDate (dt : DateTime) : String :=
  formatYMD dt.date

/-- Date-only lexicographic order on calendar dates. -/
def dateLe (a b : CalDate) : Bool :=
  decide (a.year < b.year) ||
    (decide (a.year = b.year) &&
      (decide (a.month < b.month) ||
        (decide (a.month = b.month) && decide (a.day ≤ b.day))))

/-- JavaScript truthiness of an optional number: `undefined` and `0` are
falsy, every other number is truthy. -/
def jsTruthyOptInt : Option Int → Bool
  | none => false
  | some k => decide (k ≠ 0)

/-- The `InterfaceRecurrenceRuleState` record of `utils/recurrenceUtils`,
as held in the component's `recurrenceRuleState`: the two date fields are
JavaScript `Date` values (`recurrenceEndDate` nullable), `count` and
`weekDayOccurenceInMonth` are optional numbers. -/
structure InterfaceRecurrenceRuleState where
  recurrenceStartDate : DateTime
  recurrenceEndDate : Option DateTime
  frequency : Frequency
  weekDays : List WeekDay
  interval : Nat
  count : Option Nat
  weekDayOccurenceInMonth : Option Int
deriving DecidableEq, Repr

/-- Modelled from the spec: `haveInstanceDatesChanged(originalStart,
originalEnd, editedStart, editedEnd)` of the missing
`utils/recurrenceUtils` module is "true iff either date differs (date-only
comparison, ignoring time-of-day)". -/
def haveInstanceDatesChanged
    (originalStart originalEnd editedStart editedEnd : DateTime) : Bool :=
  decide (originalStart.date ≠ editedStart.date) ||
    decide (originalEnd.date ≠ editedEnd.date)

/-- Equality of two weekday lists viewed as sets, the "weekDays as a set"
comparison of the spec's rule-change contract. -/
def sameWeekDaySet (l1 l2 : List WeekDay) : Bool :=
  decide (∀ d : WeekDay, d ∈ l1 ↔ d ∈ l2)

/-- Date-only equality of two nullable `Date` values. -/
def optDateOnlyEq : Option DateTime → Option DateTime → Bool
  | none, none => true
  | some a, some b => decide (a.date = b.date)
  | _, _ => false

/-- Modelled from the spec: `hasRecurrenceRuleChanged(originalRule,
editedRule)` of the missing `utils/recurrenceUtils` module is "true if
`originalRule` is absent and `editedRule` is present (turning on
recurrence) or vice versa, OR if the structurally comparable fields
(`frequency`, `interval`, `weekDays` as a set, `recurrenceEndDate`,
`count`, `weekDayOccurrenceInMonth`) differ in at least one field";
`recurrenceStartDate` is deliberately excluded from the comparison. -/
def hasRecurrenceRuleChanged :
    Option InterfaceRecurrenceRuleState →
      Option InterfaceRecurrenceRuleState → Bool
  | none, none => false
  | none, some _ => true
  | some _, none => true
  | some o, some e =>
    !(decide (o.frequency = e.frequency) &&
      decide (o.interval = e.interval) &&
      sameWeekDaySet o.weekDays e.weekDays &&
      optDateOnlyEq o.recurrenceEndDate e.recurrenceEndDate &&
      decide (o.count = e.count) &&
      decide (o.weekDayOccurenceInMonth = e.weekDayOccurenceInMonth))

/-- English name of a weekday, for the formatter's weekday enumeration. -/
def weekDayName : WeekDay → String
  | .SUNDAY => "Sunday"
  | .MONDAY => "Monday"
  | .TUESDAY => "Tuesday"
  | .WEDNESDAY => "Wednesday"
  | .THURSDAY => "Thursday"
  | .FRIDAY => "Friday"
  | .SATURDAY => "Saturday"

/-- Singular period noun of a frequency ("day", "week", ...). -/
def frequencyUnit : Frequency → String
  | .DAILY => "day"
  | .WEEKLY => "week"
  | .MONTHLY => "month"
  | .YEARLY => "year"

/-- Base phrase of the recurrence text: "every week", "every 2 weeks". -/
def basePhrase (freq : Frequency) (interval : Nat) : String :=
  if interval = 1 then "every " ++ frequencyUnit freq
  else "every " ++ toString interval ++ " " ++ frequencyUnit freq ++ "s"

/-- Comma-join of weekday names; an empty enumeration has no rendering
(this is the formatter's one precondition-violation point). -/
def joinDayNames : List WeekDay → Option String
  | [] => none
  | [d] => some (weekDayName d)
  | d :: d2 :: ds =>
    (joinDayNames (d2 :: ds)).map (fun s => weekDayName d ++ ", " ++ s)

/-- Ordinal rendering of a month-occurrence index, `-1` meaning "last". -/
def ordinalOf (k : Int) : String :=
  if k = -1 then "last"
  else if k = 1 then "1st"
  else if k = 2 then "2nd"
  else if k = 3 then "3rd"
  else toString k ++ "th"

/-- Month-occurrence phrase: "on the 2nd Tuesday". -/
def monthOccurrencePhrase (k : Int) (ws : List WeekDay) : String :=
  "on the " ++ ordinalOf k ++ " " ++
    (match ws.head? with
     | some d => weekDayName d
     | none => "day")

/-- Termination clause of the recurrence text: the end-date clause wins
over the count clause when both are present (the spec's documented
tie-break), and an unbounded rule gets no clause. -/
def terminationClause (r : InterfaceRecurrenceRuleState) : String :=
  match r.recurrenceEndDate with
  | some e => " until " ++ formatDate e
  | none =>
    match r.count with
    | some c => " for " ++ toString c ++ " times"
    | none => ""

/-- Modelled from the spec: `getRecurrenceRuleText` of the missing
`utils/recurrenceUtils` module (the spec's `formatRule`): compose a phrase
from `interval` and `frequency`, append the weekday enumeration when the
frequency is WEEKLY, append the month-occurrence phrase when
`weekDayOccurenceInMonth` is set, then the termination clause. A `none`
result marks the precondition violation of an empty weekday enumeration
under WEEKLY. -/
def getRecurrenceRuleText (r : InterfaceRecurrenceRuleState) : Option String :=
  let base := basePhrase r.frequency r.interval
  let withDays : Option String :=
    if r.frequency = Frequency.WEEKLY then
      (joinDayNames r.weekDays).map (fun ds => base ++ " on " ++ ds)
    else some base
  withDays.map (fun s =>
    (match r.weekDayOccurenceInMonth with
     | some k => s ++ " " ++ monthOccurrencePhrase k r.weekDays
     | none => s) ++ terminationClause r)

/-- The RecurrenceRule model invariants of the spec: `interval >= 1`,
`weekDays` non-empty when the frequency is WEEKLY, and
`recurrenceStartDate <= recurrenceEndDate` (date-only) when the latter is
present. -/
def validRule (r : InterfaceRecurrenceRuleState) : Bool :=
  decide (1 ≤ r.interval) &&
    (if r.frequency = Frequency.WEEKLY then !r.weekDays.isEmpty else true) &&
    (match r.recurrenceEndDate with
     | some e => dateLe r.recurrenceStartDate.date e.date
     | none => true)

/-- The component state driving the recurring-update scope choice: the
`recurringEventUpdateType`, `recurringEventUpdateOptions` and
`shouldShowRecurringEventUpdateOptions` `useState` hooks of
`EventListCardModals`. -/
structure ScopeState where
  recurringEventUpdateType : RecurringEventMutationType
  recurringEventUpdateOptions : List RecurringEventMutationType
  shouldShowRecurringEventUpdateOptions : Bool
deriving DecidableEq, Repr

/-- The initial values of the three scope hooks: type `thisInstance`,
all three options available, options shown. -/
def initialScopeState : ScopeState :=
  { recurringEventUpdateType := thisInstance
    recurringEventUpdateOptions :=
      [thisInstance, thisAndFollowingInstances, allInstances]
    shouldShowRecurringEventUpdateOptions := true }

/-- The scope-options `useEffect` of `EventListCardModals` (the body that
runs whenever `recurrenceRuleChanged` or `instanceDatesChanged` changes):
four sequential `if` blocks, each overwriting part of the scope state. -/
def scopeOptionsEffect (instanceDatesChanged recurrenceRuleChanged : Bool)
    (s0 : ScopeState) : ScopeState :=
  let s1 :=
    if instanceDatesChanged then
      { recurringEventUpdateType := thisInstance
        recurringEventUpdateOptions := [thisInstance, thisAndFollowingInstances]
        shouldShowRecurringEventUpdateOptions := true }
    else s0
  let s2 :=
    if recurrenceRuleChanged then
      { recurringEventUpdateType := thisAndFollowingInstances
        recurringEventUpdateOptions := [thisAndFollowingInstances, allInstances]
        shouldShowRecurringEventUpdateOptions := true }
    else s1
  let s3 :=
    if recurrenceRuleChanged && instanceDatesChanged then
      { s2 with
          recurringEventUpdateType := thisAndFollowingInstances
          shouldShowRecurringEventUpdateOptions := false }
    else s2
  if !recurrenceRuleChanged && !instanceDatesChanged then
    { recurringEventUpdateType := thisInstance
      recurringEventUpdateOptions :=
        [thisInstance, thisAndFollowingInstances, allInstances]
      shouldShowRecurringEventUpdateOptions := true }
  else s3

/-- The spec's `EditScopeDecision` record (section 4.3). -/
structure EditScopeDecision where
  availableScopes : List RecurringEventMutationType
  defaultScope : RecurringEventMutationType
  requiresUserChoice : Bool
deriving DecidableEq, Repr

/-- The edit-scope decision table exactly as written in the spec's section
4.3, row by row; this is the specification-side definition a refinement
claim compares the code against. -/
def specDeriveScopeOptions (datesChanged ruleChanged : Bool) :
    EditScopeDecision :=
  match datesChanged, ruleChanged with
  | false, false =>
    ⟨[thisInstance, thisAndFollowingInstances, allInstances], thisInstance, true⟩
  | true, false =>
    ⟨[thisInstance, thisAndFollowingInstances], thisInstance, true⟩
  | false, true =>
    ⟨[thisAndFollowingInstances, allInstances], thisAndFollowingInstances, true⟩
  | true, true =>
    ⟨[thisAndFollowingInstances], thisAndFollowingInstances, false⟩

/-- The `formState` hook of `EventListCardModals`. -/
structure EventFormState where
  title : String
  eventdescrip : String
  location : String
  startTime : String
  endTime : String
deriving DecidableEq, Repr

/-- The slice of `EventListCardModals` state read by
`updateEventHandler` when it builds the mutation variables. -/
structure ComponentState where
  alldaychecked : Bool
  recurringchecked : Bool
  publicchecked : Bool
  registrablechecked : Bool
  eventStartDate : DateTime
  eventEndDate : DateTime
  recurrenceRuleState : InterfaceRecurrenceRuleState
  formState : EventFormState
  recurringEventUpdateType : RecurringEventMutationType
  instanceDatesChanged : Bool
  recurrenceRuleChanged : Bool
deriving DecidableEq, Repr

/-- The variables object of the `UPDATE_EVENT_MUTATION` call, field for
field; an `Option` field with value `none` models a JavaScript
`undefined` (omitted) field, and the nested `Option` of
`recurrenceEndDate` distinguishes omitted (`none`) from an explicit
`null` (`some none`). -/
structure UpdateEventVariables where
  id : String
  title : String
  description : String
  isPublic : Bool
  recurring : Bool
  recurringEventUpdateType : Option RecurringEventMutationType
  isRegisterable : Bool
  allDay : Bool
  startDate : String
  endDate : String
  location : String
  startTime : Option String
  endTime : Option String
  recurrenceStartDate : Option String
  recurrenceEndDate : Option (Option String)
  frequency : Option Frequency
  weekDays : Option (List WeekDay)
  interval : Option Nat
  count : Option Nat
  weekDayOccurenceInMonth : Option Int
deriving DecidableEq, Repr

/-- The variables object built by `updateEventHandler` of
`EventListCardModals` (lines 245-288), translated conditional for
conditional; the bare `weekDayOccurenceInMonth` in the `weekDays`
condition is a JavaScript truthiness test, hence `jsTruthyOptInt`. -/
def updateEventHandler (eventId : String) (s : ComponentState) :
    UpdateEventVariables :=
  { id := eventId
    title := s.formState.title
    description := s.formState.eventdescrip
    isPublic := s.publicchecked
    recurring := s.recurringchecked
    recurringEventUpdateType :=
      if s.recurringchecked then some s.recurringEventUpdateType else none
    isRegisterable := s.registrablechecked
    allDay := s.alldaychecked
    startDate := formatDate s.eventStartDate
    endDate := formatDate s.eventEndDate
    location := s.formState.location
    startTime := if !s.alldaychecked then some s.formState.startTime else none
    endTime := if !s.alldaychecked then some s.formState.endTime else none
    recurrenceStartDate :=
      if s.recurringchecked then
        some
          (if decide (s.recurringEventUpdateType = thisAndFollowingInstances) &&
              (s.instanceDatesChanged || s.recurrenceRuleChanged) then
            formatDate s.eventStartDate
          else
            formatDate s.recurrenceRuleState.recurrenceStartDate)
      else none
    recurrenceEndDate :=
      if s.recurringchecked then
        some
          (match s.recurrenceRuleState.recurrenceEndDate with
           | some e => some (formatDate e)
           | none => none)
      else none
    frequency :=
      if s.recurringchecked then some s.recurrenceRuleState.frequency else none
    weekDays :=
      if s.recurringchecked &&
          (decide (s.recurrenceRuleState.frequency = Frequency.WEEKLY) ||
            (decide (s.recurrenceRuleState.frequency = Frequency.MONTHLY) &&
              jsTruthyOptInt s.recurrenceRuleState.weekDayOccurenceInMonth)) then
        some s.recurrenceRuleState.weekDays
      else none
    interval :=
      if s.recurringchecked then some s.recurrenceRuleState.interval else none
    count := if s.recurringchecked then s.recurrenceRuleState.count else none
    weekDayOccurenceInMonth :=
      if s.recurringchecked then s.recurrenceRuleState.weekDayOccurenceInMonth
      else none }

/-- The two ways `handleEventUpdate` can proceed on submit. -/
inductive UpdateAction where
  | invokeUpdateMutation
  | showUpdateOptionsModal
deriving DecidableEq, Repr

/-- `handleEventUpdate` of `EventListCardModals` (lines 303-313): a
non-recurring event updates directly; a recurring event opens the
confirmation modal exactly when the scope options should be shown,
otherwise it updates directly. -/
def handleEventUpdate (recurring : Bool)
    (shouldShowRecurringEventUpdateOptions : Bool) : UpdateAction :=
  if !recurring then UpdateAction.invokeUpdateMutation
  else if shouldShowRecurringEventUpdateOptions then
    UpdateAction.showUpdateOptionsModal
  else UpdateAction.invokeUpdateMutation

/-- The component state touched by `registerEventHandler`: the
`isRegistered` hook and the view-modal visibility. -/
structure RegisterSessionState where
  isRegistered : Bool
  viewModalOpen : Bool
deriving DecidableEq, Repr

/-- The outcome of the external register mutation when it is invoked. -/
inductive MutationOutcome where
  | success
  | failure
deriving DecidableEq, Repr

/-- `isInitiallyRegistered` of `EventListCardModals`:
`attendees?.some((attendee) => attendee._id === userId)`, with an absent
attendee list giving a falsy result. -/
def isInitiallyRegistered (attendees : Option (List String))
    (userId : String) : Bool :=
  match attendees with
  | none => false
  | some l => l.any (fun a => a == userId)

/-- `registerEventHandler` of `EventListCardModals` (lines 351-369): when
not yet registered it invokes the register mutation (first component
`true`), and on success sets `isRegistered` and hides the view modal; when
already registered it does nothing at all. -/
def registerEventHandler (s : RegisterSessionState)
    (outcome : MutationOutcome) : Bool × RegisterSessionState :=
  if !s.isRegistered then
    match outcome with
    | MutationOutcome.success =>
      (true, { isRegistered := true, viewModalOpen := false })
    | MutationOutcome.failure => (true, s)
  else (false, s)

/-- Repeated invocations of `registerEventHandler` across one UI session,
returning the per-call mutation-invocation log and the final state. -/
def runRegisterTrace (s : RegisterSessionState) :
    List MutationOutcome → List Bool × RegisterSessionState
  | [] => ([], s)
  | o :: os =>
    let step := registerEventHandler s o
    let rest := runRegisterTrace step.2 os
    (step.1 :: rest.1, rest.2)

/-- A sample `Date`: 2024-01-01 at 08:00:00. -/
def sampleDate1 : DateTime := ⟨⟨2024, 1, 1⟩, 8, 0, 0⟩

/-- A sample `Date`: 2024-01-08 at 08:30:00. -/
def sampleDate2 : DateTime := ⟨⟨2024, 1, 8⟩, 8, 30, 0⟩

/-- A sample weekly recurrence rule satisfying the model invariants. -/
def sampleRule : InterfaceRecurrenceRuleState :=
  { recurrenceStartDate := sampleDate1
    recurrenceEndDate := none
    frequency := Frequency.WEEKLY
    weekDays := [WeekDay.MONDAY]
    interval := 1
    count := none
    weekDayOccurenceInMonth := none }

/-- `sampleRule` with only its `recurrenceStartDate` shifted. -/
def sampleRuleShifted : InterfaceRecurrenceRuleState :=
  { sampleRule with recurrenceStartDate := sampleDate2 }

/-- A sample form state. -/
def sampleForm : EventFormState :=
  { title := "Team sync"
    eventdescrip := "Weekly team sync"
    location := "Hall A"
    startTime := "09:00:00"
    endTime := "10:00:00" }

/-- A sample recurring edit session: dates changed, rule unchanged, scope
`thisAndFollowingInstances` selected. -/
def sampleRecurringState : ComponentState :=
  { alldaychecked := false
    recurringchecked := true
    publicchecked := true
    registrablechecked := false
    eventStartDate := sampleDate2
    eventEndDate := sampleDate2
    recurrenceRuleState := sampleRule
    formState := sampleForm
    recurringEventUpdateType := thisAndFollowingInstances
    instanceDatesChanged := true
    recurrenceRuleChanged := false }

/-- A sample non-recurring, all-day edit session. -/
def sampleNonRecurringAllDayState : ComponentState :=
  { sampleRecurringState with
      recurringchecked := false
      alldaychecked := true
      recurringEventUpdateType := thisInstance
      instanceDatesChanged := false }

/-- A sample recurring MONTHLY session whose `weekDayOccurenceInMonth` is
set to the falsy number `0` while `weekDays` is non-empty. -/
def sampleMonthlyZeroOccurrenceState : ComponentState :=
  { sampleRecurringState with
      recurrenceRuleState :=
        { sampleRule with
            frequency := Frequency.MONTHLY
            weekDayOccurenceInMonth := some 0 } }

/-- Reduction of the scope-options effect in the no-change state: every
field is overwritten, so the prior state is irrelevant. -/
theorem scopeOptionsEffect_ff (s : ScopeState) :
    scopeOptionsEffect false false s =
      ⟨thisInstance, [thisInstance, thisAndFollowingInstances, allInstances],
        true⟩ := rfl

/-- Reduction of the scope-options effect in the dates-only state. -/
theorem scopeOptionsEffect_tf (s : ScopeState) :
    scopeOptionsEffect true false s =
      ⟨thisInstance, [thisInstance, thisAndFollowingInstances], true⟩ := rfl

/-- Reduction of the scope-options effect in the rule-only state. -/
theorem scopeOptionsEffect_ft (s : ScopeState) :
    scopeOptionsEffect false true s =
      ⟨thisAndFollowingInstances, [thisAndFollowingInstances, allInstances],
        true⟩ := rfl

/-- Reduction of the scope-options effect in the both-changed state: the
third block overwrites the type and the visibility flag, leaving the
options written by the second block. -/
theorem scopeOptionsEffect_tt (s : ScopeState) :
    scopeOptionsEffect true true s =
      ⟨thisAndFollowingInstances, [thisAndFollowingInstances, allInstances],
        false⟩ := rfl

/-- C1 counterexample: when both `instanceDatesChanged` and
`recurrenceRuleChanged` are true, the options state left by the
scope-options effect is the two-element `[thisAndFollowingInstances,
allInstances]` (the third `if` block overwrites only the type and the
visibility flag), not the spec table's one-element
`[THIS_AND_FOLLOWING]`. -/
theorem scopeEffect_bothChanged_options_differ_from_table :
    (scopeOptionsEffect true true initialScopeState).recurringEventUpdateOptions ≠
      (specDeriveScopeOptions true true).availableScopes := by
  decide

/-- C1 (amended): for every prior scope state and every flag pair, the
scope-options effect reproduces the spec table's `defaultScope` and
`requiresUserChoice` entries; its options state equals the table's
`availableScopes` in the three rows where at most one flag is true, while
in the both-true row it remains `[thisAndFollowingInstances,
allInstances]` (never rendered, since no user choice is required). -/
theorem scopeEffect_matches_table_rows :
    ∀ (s : ScopeState) (d r : Bool),
      (scopeOptionsEffect d r s).recurringEventUpdateType =
          (specDeriveScopeOptions d r).defaultScope ∧
        (scopeOptionsEffect d r s).shouldShowRecurringEventUpdateOptions =
          (specDeriveScopeOptions d r).requiresUserChoice ∧
        (¬(d = true ∧ r = true) →
          (scopeOptionsEffect d r s).recurringEventUpdateOptions =
            (specDeriveScopeOptions d r).availableScopes) ∧
        ((d = true ∧ r = true) →
          (scopeOptionsEffect d r s).recurringEventUpdateOptions =
            [thisAndFollowingInstances, allInstances]) := by
  intro s d r
  cases d <;> cases r <;>
    simp only [scopeOptionsEffect_ff, scopeOptionsEffect_tf,
      scopeOptionsEffect_ft, scopeOptionsEffect_tt] <;>
    decide

/-- C1 witness: the dates-only row, instantiated. -/
theorem scopeEffect_matches_table_rows_witness :
    (scopeOptionsEffect true false initialScopeState).recurringEventUpdateOptions =
      (specDeriveScopeOptions true false).availableScopes :=
  (scopeEffect_matches_table_rows initialScopeState true false).2.2.1 (by decide)

/-- C2 counterexample: in the both-changed state the effect leaves more
than one entry in the options list yet sets the user-choice flag to
false, so "requiresUserChoice is true exactly when availableScopes has
more than one entry" fails there. -/
theorem scopeEffect_bothChanged_choice_without_singleton :
    (scopeOptionsEffect true true initialScopeState).shouldShowRecurringEventUpdateOptions
        = false ∧
      1 < (scopeOptionsEffect true true
            initialScopeState).recurringEventUpdateOptions.length := by
  decide

/-- C2 (amended): after every recomputation the user-choice flag is true
exactly when the options list has more than one entry and not both change
flags are true (in the both-changed state the flag is false although two
entries remain); and on submit of a recurring event `handleEventUpdate`
opens the confirmation modal exactly when the flag is true, otherwise it
invokes the update mutation directly. -/
theorem scope_choice_iff_options_not_forced :
    ∀ (s : ScopeState) (d r sh : Bool),
      ((scopeOptionsEffect d r s).shouldShowRecurringEventUpdateOptions = true ↔
        (1 < (scopeOptionsEffect d r s).recurringEventUpdateOptions.length ∧
          ¬(d = true ∧ r = true))) ∧
      handleEventUpdate true sh =
        (if sh then UpdateAction.showUpdateOptionsModal
         else UpdateAction.invokeUpdateMutation) := by
  intro s d r sh
  cases d <;> cases r <;> cases sh <;>
    simp only [scopeOptionsEffect_ff, scopeOptionsEffect_tf,
      scopeOptionsEffect_ft, scopeOptionsEffect_tt] <;>
    decide

/-- C2 witness: the no-change row, with the user-choice flag obtained
from the characterisation. -/
theorem scope_choice_iff_options_not_forced_witness :
    (scopeOptionsEffect false false
        initialScopeState).shouldShowRecurringEventUpdateOptions = true :=
  ((scope_choice_iff_options_not_forced initialScopeState false false false).1).mpr
    ⟨by decide, by decide⟩

/-- C4: in the initial state of an opened edit session, and after every
run of the scope-options effect from any prior state, the selected
`recurringEventUpdateType` is an element of the current
`recurringEventUpdateOptions`, and the options list is non-empty. -/
theorem scope_default_always_available :
    (initialScopeState.recurringEventUpdateType ∈
        initialScopeState.recurringEventUpdateOptions ∧
      initialScopeState.recurringEventUpdateOptions ≠ []) ∧
    ∀ (s : ScopeState) (d r : Bool),
      (scopeOptionsEffect d r s).recurringEventUpdateType ∈
          (scopeOptionsEffect d r s).recurringEventUpdateOptions ∧
        (scopeOptionsEffect d r s).recurringEventUpdateOptions ≠ [] := by
  refine ⟨by decide, ?_⟩
  intro s d r
  cases d <;> cases r <;>
    simp only [scopeOptionsEffect_ff, scopeOptionsEffect_tf,
      scopeOptionsEffect_ft, scopeOptionsEffect_tt] <;>
    decide

/-- C4 witness: the membership in the forced both-changed state,
instantiated. -/
theorem scope_default_always_available_witness :
    (scopeOptionsEffect true true initialScopeState).recurringEventUpdateType ∈
      (scopeOptionsEffect true true initialScopeState).recurringEventUpdateOptions :=
  (scope_default_always_available.2 initialScopeState true true).1

/-- C3: in every recurring update submission where the selected scope is
`thisAndFollowingInstances` and at least one of `instanceDatesChanged` or
`recurrenceRuleChanged` is true, the submitted `recurrenceStartDate`
equals the edited instance's start date formatted date-only; in every
other recurring submission it equals the stored series
`recurrenceStartDate`, formatted date-only. -/
theorem updateEvent_recurrenceStartDate_split :
    ∀ (eventId : String) (s : ComponentState), s.recurringchecked = true →
      ((s.recurringEventUpdateType = thisAndFollowingInstances ∧
          (s.instanceDatesChanged = true ∨ s.recurrenceRuleChanged = true)) →
        (updateEventHandler eventId s).recurrenceStartDate =
          some (formatDate s.eventStartDate)) ∧
      (¬(s.recurringEventUpdateType = thisAndFollowingInstances ∧
          (s.instanceDatesChanged = true ∨ s.recurrenceRuleChanged = true)) →
        (updateEventHandler eventId s).recurrenceStartDate =
          some (formatDate s.recurrenceRuleState.recurrenceStartDate)) := by
  intro eventId s hrec
  constructor
  · rintro ⟨h1, h2 | h2⟩ <;> simp [updateEventHandler, hrec, h1, h2]
  · intro h
    by_cases h1 : s.recurringEventUpdateType = thisAndFollowingInstances
    · have h2 : ¬(s.instanceDatesChanged = true ∨ s.recurrenceRuleChanged = true) :=
        fun hc => h ⟨h1, hc⟩
      push_neg at h2
      simp [updateEventHandler, hrec, h1, h2.1, h2.2]
    · simp [updateEventHandler, hrec, h1]

/-- C3 witness: a recurring session with dates changed and scope
`thisAndFollowingInstances` submits the edited instance start date. -/
theorem updateEvent_recurrenceStartDate_split_witness :
    (updateEventHandler "event123" sampleRecurringState).recurrenceStartDate =
      some (formatDate sampleRecurringState.eventStartDate) :=
  (updateEvent_recurrenceStartDate_split "event123" sampleRecurringState
      (by decide)).1 ⟨by decide, Or.inl (by decide)⟩

/-- C5: `haveInstanceDatesChanged` is true iff the start or the end date
differs date-only (time-of-day ignored); a no-op edit detects no change;
changing either single date yields true. -/
theorem haveInstanceDatesChanged_spec :
    ∀ a b a' b' : DateTime,
      (haveInstanceDatesChanged a b a' b' = true ↔
        (a.date ≠ a'.date ∨ b.date ≠ b'.date)) ∧
      haveInstanceDatesChanged a b a b = false ∧
      (a.date ≠ a'.date → haveInstanceDatesChanged a b a' b = true) ∧
      (b.date ≠ b'.date → haveInstanceDatesChanged a b a b' = true) := by
  intro a b a' b'
  refine ⟨by simp [haveInstanceDatesChanged], by simp [haveInstanceDatesChanged],
    fun h => by simp [haveInstanceDatesChanged, h],
    fun h => by simp [haveInstanceDatesChanged, h]⟩

/-- C5 witness: changing only the start date (2024-01-01 to 2024-01-08)
is detected. -/
theorem haveInstanceDatesChanged_spec_witness :
    haveInstanceDatesChanged sampleDate1 sampleDate1 sampleDate2 sampleDate1 =
      true :=
  (haveInstanceDatesChanged_spec sampleDate1 sampleDate1 sampleDate2
      sampleDate1).2.2.1 (by decide)

/-- C6: `hasRecurrenceRuleChanged` is reflexive (equal rules compare
unchanged), reports a change whenever exactly one side is absent, and
reports no change for two rules agreeing on `frequency`, `interval`,
`weekDays` as a set, `recurrenceEndDate`, `count` and
`weekDayOccurenceInMonth` even when their `recurrenceStartDate`
differs. -/
theorem hasRecurrenceRuleChanged_spec :
    ∀ r o e : InterfaceRecurrenceRuleState,
      hasRecurrenceRuleChanged (some r) (some r) = false ∧
      hasRecurrenceRuleChanged none (some r) = true ∧
      hasRecurrenceRuleChanged (some r) none = true ∧
      (o.frequency = e.frequency → o.interval = e.interval →
        (∀ d : WeekDay, d ∈ o.weekDays ↔ d ∈ e.weekDays) →
        o.recurrenceEndDate = e.recurrenceEndDate → o.count = e.count →
        o.weekDayOccurenceInMonth = e.weekDayOccurenceInMonth →
        hasRecurrenceRuleChanged (some o) (some e) = false) := by
  intro r o e
  refine ⟨?_, rfl, rfl, ?_⟩
  · have hd : optDateOnlyEq r.recurrenceEndDate r.recurrenceEndDate = true := by
      cases r.recurrenceEndDate <;> simp [optDateOnlyEq]
    simp [hasRecurrenceRuleChanged, sameWeekDaySet, hd]
  · intro h1 h2 h3 h4 h5 h6
    have hs : sameWeekDaySet o.weekDays e.weekDays = true := by
      simpa [sameWeekDaySet] using h3
    have hd : optDateOnlyEq o.recurrenceEndDate e.recurrenceEndDate = true := by
      rw [h4]; cases e.recurrenceEndDate <;> simp [optDateOnlyEq]
    simp [hasRecurrenceRuleChanged, h1, h2, h5, h6, hs, hd]

/-- C6 witness: a rule compared with itself shifted only in
`recurrenceStartDate` is reported unchanged. -/
theorem hasRecurrenceRuleChanged_spec_witness :
    hasRecurrenceRuleChanged (some sampleRule) (some sampleRuleShifted) =
      false :=
  (hasRecurrenceRuleChanged_spec sampleRule sampleRule
      sampleRuleShifted).2.2.2 rfl rfl (by decide) rfl rfl rfl

/-- A non-empty weekday enumeration always has a rendering. -/
theorem joinDayNames_isSome :
    ∀ l : List WeekDay, l ≠ [] → ∃ s, joinDayNames l = some s := by
  intro l
  induction l with
  | nil => intro h; exact absurd rfl h
  | cons d ds ih =>
    intro _
    cases ds with
    | nil => exact ⟨weekDayName d, rfl⟩
    | cons d2 ds2 =>
      obtain ⟨s, hs⟩ := ih (by simp)
      exact ⟨weekDayName d ++ ", " ++ s, by simp [joinDayNames, hs]⟩

/-- C7: on every rule satisfying the model invariants the recurrence text
formatter succeeds (it is total: no failure case is reached), and it is
deterministic — equal inputs give equal outputs. -/
theorem getRecurrenceRuleText_total_deterministic :
    ∀ r : InterfaceRecurrenceRuleState, validRule r = true →
      (getRecurrenceRuleText r).isSome = true ∧
      (∀ r', r' = r → getRecurrenceRuleText r' = getRecurrenceRuleText r) := by
  intro r hv
  refine ⟨?_, fun r' h => by rw [h]⟩
  by_cases hf : r.frequency = Frequency.WEEKLY
  · have hw : r.weekDays ≠ [] := by
      rcases hwe : r.weekDays with _ | _
      · exfalso; simp [validRule, hf, hwe] at hv
      · simp
    obtain ⟨s, hs⟩ := joinDayNames_isSome r.weekDays hw
    simp [getRecurrenceRuleText, hf, hs]
  · simp [getRecurrenceRuleText, hf]

/-- C7 witness: the sample weekly rule is valid and formats
successfully. -/
theorem getRecurrenceRuleText_total_deterministic_witness :
    (getRecurrenceRuleText sampleRule).isSome = true :=
  (getRecurrenceRuleText_total_deterministic sampleRule (by decide)).1

/-- C8 counterexample: in a non-recurring all-day submission the
`startTime` field is omitted rather than passed from the form state, so
"the time fields are passed from the form state unchanged" fails as
stated. -/
theorem updateEvent_allDay_omits_times :
    sampleNonRecurringAllDayState.recurringchecked = false ∧
      (updateEventHandler "event123" sampleNonRecurringAllDayState).startTime =
        none ∧
      (updateEventHandler "event123" sampleNonRecurringAllDayState).startTime ≠
        some sampleNonRecurringAllDayState.formState.startTime := by
  decide

/-- C8 (amended): in every submission with the recurring flag false, every
recurrence-related mutation field is omitted, and each non-recurrence
field is taken from the corresponding form state, the start and end times
being passed unchanged when `allDay` is false and omitted when it is
true. -/
theorem updateEvent_nonRecurring_frame :
    ∀ (eventId : String) (s : ComponentState), s.recurringchecked = false →
      (updateEventHandler eventId s).recurringEventUpdateType = none ∧
      (updateEventHandler eventId s).recurrenceStartDate = none ∧
      (updateEventHandler eventId s).recurrenceEndDate = none ∧
      (updateEventHandler eventId s).frequency = none ∧
      (updateEventHandler eventId s).weekDays = none ∧
      (updateEventHandler eventId s).interval = none ∧
      (updateEventHandler eventId s).count = none ∧
      (updateEventHandler eventId s).weekDayOccurenceInMonth = none ∧
      (updateEventHandler eventId s).title = s.formState.title ∧
      (updateEventHandler eventId s).description = s.formState.eventdescrip ∧
      (updateEventHandler eventId s).isPublic = s.publicchecked ∧
      (updateEventHandler eventId s).isRegisterable = s.registrablechecked ∧
      (updateEventHandler eventId s).allDay = s.alldaychecked ∧
      (updateEventHandler eventId s).startDate = formatDate s.eventStartDate ∧
      (updateEventHandler eventId s).endDate = formatDate s.eventEndDate ∧
      (updateEventHandler eventId s).location = s.formState.location ∧
      (updateEventHandler eventId s).startTime =
        (if s.alldaychecked then none else some s.formState.startTime) ∧
      (updateEventHandler eventId s).endTime =
        (if s.alldaychecked then none else some s.formState.endTime) := by
  intro eventId s h
  cases ha : s.alldaychecked <;> simp [updateEventHandler, h, ha]

/-- C8 witness: the sample non-recurring submission omits the recurrence
scope field. -/
theorem updateEvent_nonRecurring_frame_witness :
    (updateEventHandler "event123"
        sampleNonRecurringAllDayState).recurringEventUpdateType = none :=
  (updateEvent_nonRecurring_frame "event123" sampleNonRecurringAllDayState
      (by decide)).1

/-- C9 counterexample: a recurring MONTHLY submission whose
`weekDayOccurenceInMonth` is set to the falsy number `0` omits `weekDays`
although the field is set and the weekday list is non-empty — the bare
JavaScript truthiness test, not definedness, decides inclusion. -/
theorem updateEvent_monthly_zero_occurrence_omits_weekDays :
    sampleMonthlyZeroOccurrenceState.recurringchecked = true ∧
      sampleMonthlyZeroOccurrenceState.recurrenceRuleState.frequency =
        Frequency.MONTHLY ∧
      sampleMonthlyZeroOccurrenceState.recurrenceRuleState.weekDayOccurenceInMonth ≠
        none ∧
      sampleMonthlyZeroOccurrenceState.recurrenceRuleState.weekDays ≠ [] ∧
      (updateEventHandler "event123"
          sampleMonthlyZeroOccurrenceState).weekDays = none := by
  decide

/-- C9 (amended): in every recurring submission the `weekDays` field is
included exactly when the frequency is WEEKLY, or MONTHLY with
`weekDayOccurenceInMonth` set to a non-zero (truthy) number; whenever
included, it carries the form's weekday list. -/
theorem updateEvent_weekDays_condition :
    ∀ (eventId : String) (s : ComponentState), s.recurringchecked = true →
      ((updateEventHandler eventId s).weekDays ≠ none ↔
        (s.recurrenceRuleState.frequency = Frequency.WEEKLY ∨
          (s.recurrenceRuleState.frequency = Frequency.MONTHLY ∧
            ∃ k, s.recurrenceRuleState.weekDayOccurenceInMonth = some k ∧
              k ≠ 0))) ∧
      ((updateEventHandler eventId s).weekDays ≠ none →
        (updateEventHandler eventId s).weekDays =
          some s.recurrenceRuleState.weekDays) := by
  intro eventId s h
  cases hf : s.recurrenceRuleState.frequency <;>
    cases hw : s.recurrenceRuleState.weekDayOccurenceInMonth <;>
    simp [updateEventHandler, h, hf, hw, jsTruthyOptInt]

/-- C9 witness: the sample weekly submission includes its weekday list. -/
theorem updateEvent_weekDays_condition_witness :
    (updateEventHandler "event123" sampleRecurringState).weekDays =
      some sampleRecurringState.recurrenceRuleState.weekDays :=
  (updateEvent_weekDays_condition "event123" sampleRecurringState
      (by decide)).2 (by decide)

/-- C10: while `isRegistered` is true, a call of `registerEventHandler`
invokes no mutation and leaves the state unchanged, and so does every
further call in the session: the whole invocation log of any outcome
trace is mutation-free and the state is untouched. -/
theorem registerEvent_noop_when_registered :
    ∀ (s : RegisterSessionState) (o : MutationOutcome)
        (outs : List MutationOutcome), s.isRegistered = true →
      registerEventHandler s o = (false, s) ∧
      runRegisterTrace s outs = (outs.map (fun _ => false), s) := by
  intro s o outs h
  have hstep : ∀ o', registerEventHandler s o' = (false, s) := by
    intro o'
    cases s
    simp_all [registerEventHandler]
  refine ⟨hstep o, ?_⟩
  induction outs with
  | nil => rfl
  | cons o' os ih => simp [runRegisterTrace, hstep o', ih]

/-- C10 witness: an already-registered session ignores a successful
outcome. -/
theorem registerEvent_noop_when_registered_witness :
    registerEventHandler ⟨true, true⟩ MutationOutcome.success =
      (false, ⟨true, true⟩) :=
  (registerEvent_noop_when_registered ⟨true, true⟩ MutationOutcome.success
      [MutationOutcome.success, MutationOutcome.failure] (by decide)).1

end TalawaEvent
